import Mathlib

/-!
Verification model of `custom_components/openai_realtime/realtime_client.py`
(class `OpenAIRealtimeClient`) together with the wire-string constants it uses
from `custom_components/openai_realtime/const.py`.

The client is embedded shallowly:
- the mutable fields of the Python object become the record `ClientState`
  (option-valued attributes such as `self._ws` are tracked as booleans that
  record whether the attribute is set);
- each `async` method becomes a pure function from a `ClientState` to a new
  `ClientState` paired with the `Effects` it produced: the outbound commands
  actually written to the websocket, the observer callbacks invoked, and the
  log lines emitted (with their severity level);
- whether a low-level websocket write succeeds is an environment input
  (`sendOk`), since `_send_event` catches any failure of `self._ws.send`
  itself; whether `websockets.connect` succeeds is the environment input
  `openOk` of `connect`;
- inbound websocket frames are values of `RawFrame`: either `invalid`
  (a frame on which `json.loads` raises) or `valid m` where `m` records the
  fields of the decoded object that `_handle_message` reads (`type`, `delta`,
  and `error.code`);
- the `base64` module calls in `send_audio` and `_handle_message` are embedded
  as `b64encode` and `b64decode` over byte lists.
-/

namespace OpenAIRealtime

/-- Wire event-type string for `EVENT_RESPONSE_CREATED` in const.py. -/
def EVENT_RESPONSE_CREATED : String := "response.created"

/-- Wire event-type string for `EVENT_TYPE_RESPONSE_AUDIO_DELTA` in const.py. -/
def EVENT_TYPE_RESPONSE_AUDIO_DELTA : String := "response.output_audio.delta"

/-- Wire event-type string for `EVENT_TYPE_RESPONSE_AUDIO_TRANSCRIPT_DELTA` in const.py. -/
def EVENT_TYPE_RESPONSE_AUDIO_TRANSCRIPT_DELTA : String := "response.output_audio_transcript.delta"

/-- Wire event-type string for `EVENT_TYPE_RESPONSE_DONE` in const.py. -/
def EVENT_TYPE_RESPONSE_DONE : String := "response.done"

/-- Wire event-type string for `EVENT_TYPE_INPUT_AUDIO_BUFFER_SPEECH_STARTED` in const.py. -/
def EVENT_TYPE_INPUT_AUDIO_BUFFER_SPEECH_STARTED : String := "input_audio_buffer.speech_started"

/-- Wire event-type string for `EVENT_TYPE_INPUT_AUDIO_BUFFER_SPEECH_STOPPED` in const.py. -/
def EVENT_TYPE_INPUT_AUDIO_BUFFER_SPEECH_STOPPED : String := "input_audio_buffer.speech_stopped"

/-- Outbound commands, one per wire `type` discriminator the client emits.
Payload fields that matter to the claims are carried; the rest of the wire
object is fixed per command kind and is omitted. -/
inductive Cmd where
  | session_update
  | input_audio_buffer_append (audio : List Char)
  | input_audio_buffer_commit
  | input_audio_buffer_clear
  | response_create
  | response_cancel
  | conversation_item_create (text : String)
deriving DecidableEq

/-- Log severity levels used by the source via the `logging` module. -/
inductive Level where
  | debug
  | info
  | warning
  | error
deriving DecidableEq

/-- Observer callback invocations (the five registered callbacks). -/
inductive Obs where
  | audio (data : List Nat)
  | transcript (text : String)
  | response_done
  | speech_started
  | speech_stopped
deriving DecidableEq

/-- Externally visible effects of one operation: commands written to the
websocket, observer callbacks invoked, and log lines emitted. -/
structure Effects where
  cmds : List Cmd := []
  obs : List Obs := []
  logs : List (Level × String) := []
deriving DecidableEq

/-- Sequential composition of effects. -/
def Effects.app (a b : Effects) : Effects :=
  { cmds := a.cmds ++ b.cmds, obs := a.obs ++ b.obs, logs := a.logs ++ b.logs }

/-- Mutable attributes of `OpenAIRealtimeClient`. `connectedFlag` is
`self._connected`; `ws` is whether `self._ws` is not `None`; `receiveTask` is
whether `self._receive_task` is not `None`; the five `...Cb` fields record
whether the corresponding callback attribute is set. -/
structure ClientState where
  connectedFlag : Bool
  ws : Bool
  receiveTask : Bool
  hasActiveResponse : Bool
  isSpeaking : Bool
  audioCb : Bool
  transcriptCb : Bool
  responseDoneCb : Bool
  speechStartedCb : Bool
  speechStoppedCb : Bool
deriving DecidableEq

/-- Property `connected` of the client: `self._connected and self._ws is not None`. -/
def ClientState.connected (s : ClientState) : Bool :=
  s.connectedFlag && s.ws

/-- Base64 alphabet in index order, as used by `base64.b64encode`. -/
def b64alphabet : List Char :=
  ['A', 'B', 'C', 'D', 'E', 'F', 'G', 'H', 'I', 'J', 'K', 'L', 'M',
   'N', 'O', 'P', 'Q', 'R', 'S', 'T', 'U', 'V', 'W', 'X', 'Y', 'Z',
   'a', 'b', 'c', 'd', 'e', 'f', 'g', 'h', 'i', 'j', 'k', 'l', 'm',
   'n', 'o', 'p', 'q', 'r', 's', 't', 'u', 'v', 'w', 'x', 'y', 'z',
   '0', '1', '2', '3', '4', '5', '6', '7', '8', '9', '+', '/']

/-- Character for a 6-bit value. -/
def b64char (n : Nat) : Char := b64alphabet.getD n '='

/-- 6-bit value of an alphabet character. -/
def b64val (c : Char) : Nat := b64alphabet.indexOf c

/-- Embedding of `base64.b64encode` on a byte list (bytes are naturals below
256): three input bytes become four alphabet characters, a one- or two-byte
tail is padded with `=`. -/
def b64encode : List Nat → List Char
  | [] => []
  | [b0] => [b64char (b0 / 4), b64char (b0 % 4 * 16), '=', '=']
  | [b0, b1] => [b64char (b0 / 4), b64char (b0 % 4 * 16 + b1 / 16), b64char (b1 % 16 * 4), '=']
  | b0 :: b1 :: b2 :: rest =>
      b64char (b0 / 4) :: b64char (b0 % 4 * 16 + b1 / 16) ::
        b64char (b1 % 16 * 4 + b2 / 64) :: b64char (b2 % 64) :: b64encode rest

/-- Embedding of `base64.b64decode` on padded base64 text: each four-character
group yields three bytes, or fewer at a padded final group. -/
def b64decode : List Char → List Nat
  | c0 :: c1 :: c2 :: c3 :: rest =>
      if c2 = '=' then
        [b64val c0 * 4 + b64val c1 / 16]
      else if c3 = '=' then
        [b64val c0 * 4 + b64val c1 / 16, b64val c1 % 16 * 16 + b64val c2 / 4]
      else
        (b64val c0 * 4 + b64val c1 / 16) :: (b64val c1 % 16 * 16 + b64val c2 / 4) ::
          (b64val c2 % 4 * 64 + b64val c3) :: b64decode rest
  | _ => []

/-- Embedding of `_send_event`: with no websocket handle it only logs an error;
otherwise it writes the serialized event, and a failure of the underlying
`self._ws.send` (environment input `sendOk = false`) is caught and logged
inside `_send_event`, never propagated. -/
def _send_event (s : ClientState) (sendOk : Bool) (e : Cmd) : Effects :=
  if !s.ws then
    { logs := [(Level.error, "WebSocket not connected")] }
  else if sendOk then
    { cmds := [e], logs := [(Level.debug, "Sent event")] }
  else
    { logs := [(Level.error, "Error sending event")] }

/-- Embedding of `_configure_session`: sends the one `session.update` event. -/
def _configure_session (s : ClientState) (sendOk : Bool) : Effects :=
  _send_event s sendOk Cmd.session_update

/-- Whether `connect` returned normally or re-raised the exception from
`websockets.connect`. -/
inductive ConnectOutcome where
  | ok
  | raised
deriving DecidableEq

/-- Embedding of `connect`: a no-op when `self._connected`; otherwise opens the
websocket (environment input `openOk`), and on success sets `_connected`,
starts the receive task, and configures the session. Only a failure of
`websockets.connect` reaches the `except` clause, which sets
`self._connected = False` and re-raises; `_configure_session` cannot raise
because `_send_event` catches its own send failures. -/
def connect (s : ClientState) (openOk sendOk : Bool) : ClientState × Effects × ConnectOutcome :=
  if s.connectedFlag then
    (s, {}, ConnectOutcome.ok)
  else if !openOk then
    ({ s with connectedFlag := false },
     { logs := [(Level.error, "Failed to connect to OpenAI Realtime API")] },
     ConnectOutcome.raised)
  else
    let s1 := { s with ws := true, connectedFlag := true, receiveTask := true }
    (s1, _configure_session s1 sendOk, ConnectOutcome.ok)

/-- Embedding of `cancel_response`: a no-op unless `self._connected`; sends
`response.cancel` and clears the flag only when a response is active, and
unconditionally (given `self._connected`) sends `input_audio_buffer.clear`. -/
def cancel_response (s : ClientState) (sendOk : Bool) : ClientState × Effects :=
  if !s.connectedFlag then
    (s, {})
  else
    let p :=
      if s.hasActiveResponse then
        ({ s with hasActiveResponse := false }, _send_event s sendOk Cmd.response_cancel)
      else (s, ({} : Effects))
    (p.1, p.2.app (_send_event p.1 sendOk Cmd.input_audio_buffer_clear))

/-- Embedding of `commit_audio`: a no-op unless `self._connected`; sends
`input_audio_buffer.commit`, then sends `response.create` and sets
`self._has_active_response` only when no response is active. -/
def commit_audio (s : ClientState) (sendOk : Bool) : ClientState × Effects :=
  if !s.connectedFlag then
    (s, {})
  else
    let e1 := _send_event s sendOk Cmd.input_audio_buffer_commit
    if !s.hasActiveResponse then
      ({ s with hasActiveResponse := true },
       e1.app (_send_event s sendOk Cmd.response_create))
    else (s, e1)

/-- Embedding of `send_audio`: warns and returns when not connected or the
websocket handle is gone; otherwise base64-encodes the payload and sends one
`input_audio_buffer.append` event carrying it. -/
def send_audio (s : ClientState) (sendOk : Bool) (audio_data : List Nat) : ClientState × Effects :=
  if !s.connectedFlag || !s.ws then
    (s, { logs := [(Level.warning, "Cannot send audio: not connected")] })
  else
    (s, _send_event s sendOk (Cmd.input_audio_buffer_append (b64encode audio_data)))

/-- Fields of a decoded inbound JSON object that `_handle_message` reads:
`data.get("type")`, `data.get("delta")`, and `data.get("error", {}).get("code")`. -/
structure Msg where
  typ : Option String
  delta : Option String
  errorCode : Option String
deriving DecidableEq

/-- One inbound websocket frame: `invalid` is a frame on which `json.loads`
raises `JSONDecodeError`; `valid m` is a decoded object. -/
inductive RawFrame where
  | invalid
  | valid (m : Msg)
deriving DecidableEq

/-- Embedding of `_handle_message`: decodes the frame, branches on the `type`
discriminator string, and catches any decode failure (the `invalid` case)
by logging; a `type` matching none of the branches falls through with no
effect beyond the initial debug log. -/
def _handle_message (s : ClientState) (sendOk : Bool) (f : RawFrame) : ClientState × Effects :=
  match f with
  | RawFrame.invalid =>
      (s, { logs := [(Level.error, "Failed to decode message")] })
  | RawFrame.valid m =>
      let recvLog : Level × String := (Level.debug, "Received event")
      if m.typ = some EVENT_RESPONSE_CREATED then
        ({ s with hasActiveResponse := true },
         { logs := [recvLog, (Level.info, "Response created, tracking active response")] })
      else if m.typ = some EVENT_TYPE_RESPONSE_AUDIO_DELTA then
        match m.delta with
        | some d =>
            if d = "" then
              (s, { logs := [recvLog, (Level.warning, "No audio delta in event")] })
            else
              (s, { obs := if s.audioCb then [Obs.audio (b64decode d.data)] else [],
                    logs := [recvLog, (Level.debug, "Audio delta size")] })
        | none =>
            (s, { logs := [recvLog, (Level.warning, "No audio delta in event")] })
      else if m.typ = some EVENT_TYPE_RESPONSE_AUDIO_TRANSCRIPT_DELTA then
        let transcript := m.delta.getD ""
        (s, { obs := if transcript ≠ "" ∧ s.transcriptCb then [Obs.transcript transcript] else [],
              logs := [recvLog] })
      else if m.typ = some EVENT_TYPE_RESPONSE_DONE then
        ({ s with hasActiveResponse := false },
         { obs := if s.responseDoneCb then [Obs.response_done] else [],
           logs := [recvLog, (Level.debug, "Response done, no longer active")] })
      else if m.typ = some EVENT_TYPE_INPUT_AUDIO_BUFFER_SPEECH_STARTED then
        let s1 := { s with isSpeaking := true }
        let obs1 : List Obs := if s1.speechStartedCb then [Obs.speech_started] else []
        if s1.hasActiveResponse then
          let p := cancel_response s1 sendOk
          (p.1, Effects.app
            { obs := obs1,
              logs := [recvLog, (Level.debug, "User started speaking"),
                       (Level.debug, "Cancelling active response")] } p.2)
        else
          (s1, { obs := obs1, logs := [recvLog, (Level.debug, "User started speaking")] })
      else if m.typ = some EVENT_TYPE_INPUT_AUDIO_BUFFER_SPEECH_STOPPED then
        ({ s with isSpeaking := false },
         { obs := if s.speechStoppedCb then [Obs.speech_stopped] else [],
           logs := [recvLog, (Level.debug, "User stopped speaking")] })
      else if m.typ = some "error" then
        if m.errorCode = some "response_cancel_not_active" ∨
            m.errorCode = some "conversation_already_has_active_response" then
          (s, { logs := [recvLog, (Level.debug, "OpenAI API notice")] })
        else
          (s, { logs := [recvLog, (Level.error, "OpenAI API error")] })
      else
        (s, { logs := [recvLog] })

/-- The `async for message in self._ws` loop body of `_receive_messages`,
applied to the list of frames the transport delivers, in arrival order. -/
def _receive_loop (sendOk : Bool) : ClientState → List RawFrame → ClientState × Effects
  | s, [] => (s, {})
  | s, f :: rest =>
      let p1 := _handle_message s sendOk f
      let p2 := _receive_loop sendOk p1.1 rest
      (p2.1, p1.2.app p2.2)

/-- Embedding of `_receive_messages`: returns at once with no websocket
handle, otherwise runs the receive loop over the delivered frames. -/
def _receive_messages (s : ClientState) (sendOk : Bool) (frames : List RawFrame) :
    ClientState × Effects :=
  if !s.ws then (s, {}) else _receive_loop sendOk s frames

/-- The audio-delta and transcript-delta inbound frames. -/
def isDeltaFrame : RawFrame → Bool
  | RawFrame.invalid => false
  | RawFrame.valid m =>
      m.typ == some EVENT_TYPE_RESPONSE_AUDIO_DELTA ||
        m.typ == some EVENT_TYPE_RESPONSE_AUDIO_TRANSCRIPT_DELTA

/-- Frames whose `type` discriminator matches one of the dispatch branches of
`_handle_message`; a malformed frame or one with any other discriminator is
dropped by the dispatcher. -/
def isHandledFrame : RawFrame → Bool
  | RawFrame.invalid => false
  | RawFrame.valid m =>
      m.typ == some EVENT_RESPONSE_CREATED ||
        m.typ == some EVENT_TYPE_RESPONSE_AUDIO_DELTA ||
        m.typ == some EVENT_TYPE_RESPONSE_AUDIO_TRANSCRIPT_DELTA ||
        m.typ == some EVENT_TYPE_RESPONSE_DONE ||
        m.typ == some EVENT_TYPE_INPUT_AUDIO_BUFFER_SPEECH_STARTED ||
        m.typ == some EVENT_TYPE_INPUT_AUDIO_BUFFER_SPEECH_STOPPED ||
        m.typ == some "error"

/-- Sequential run of `send_audio`, one call per payload, modelling a stream
of AppendAudio commands issued before a commit. -/
def send_audio_seq (sendOk : Bool) : ClientState → List (List Nat) → ClientState × Effects
  | s, [] => (s, {})
  | s, d :: ds =>
      let p1 := send_audio s sendOk d
      let p2 := send_audio_seq sendOk p1.1 ds
      (p2.1, p1.2.app p2.2)

/-! Helper lemmas about the base64 embedding. -/

/-- Decoding inverts encoding on every 6-bit value, checked over `Fin 64`. -/
theorem b64val_b64char_fin : ∀ n : Fin 64, b64val (b64char n.val) = n.val := by decide

/-- Decoding inverts encoding on every 6-bit value. -/
theorem b64val_b64char {n : Nat} (h : n < 64) : b64val (b64char n) = n :=
  b64val_b64char_fin ⟨n, h⟩

/-- Alphabet characters are never the padding character, checked over `Fin 64`. -/
theorem b64char_ne_pad_fin : ∀ n : Fin 64, b64char n.val ≠ '=' := by decide

/-- Alphabet characters are never the padding character. -/
theorem b64char_ne_pad {n : Nat} (h : n < 64) : b64char n ≠ '=' :=
  b64char_ne_pad_fin ⟨n, h⟩

/-- Base64 decoding is a left inverse of base64 encoding on byte lists. -/
theorem b64decode_b64encode (l : List Nat) (h : ∀ b ∈ l, b < 256) :
    b64decode (b64encode l) = l := by
  induction l using b64encode.induct with
  | case1 => rfl
  | case2 b0 =>
      have hb0 : b0 < 256 := h b0 (by simp)
      have h1 : b0 / 4 < 64 := by omega
      have h2 : b0 % 4 * 16 < 64 := by omega
      simp only [b64encode, b64decode, if_pos]
      rw [b64val_b64char h1, b64val_b64char h2]
      congr 1
      omega
  | case3 b0 b1 =>
      have hb0 : b0 < 256 := h b0 (by simp)
      have hb1 : b1 < 256 := h b1 (by simp)
      have h1 : b0 / 4 < 64 := by omega
      have h2 : b0 % 4 * 16 + b1 / 16 < 64 := by omega
      have h3 : b1 % 16 * 4 < 64 := by omega
      simp only [b64encode, b64decode]
      rw [if_neg (b64char_ne_pad h3), if_pos trivial]
      rw [b64val_b64char h1, b64val_b64char h2, b64val_b64char h3]
      congr 1
      · omega
      congr 1
      omega
  | case4 b0 b1 b2 rest ih =>
      have hb0 : b0 < 256 := h b0 (by simp)
      have hb1 : b1 < 256 := h b1 (by simp)
      have hb2 : b2 < 256 := h b2 (by simp)
      have h1 : b0 / 4 < 64 := by omega
      have h2 : b0 % 4 * 16 + b1 / 16 < 64 := by omega
      have h3 : b1 % 16 * 4 + b2 / 64 < 64 := by omega
      have h4 : b2 % 64 < 64 := by omega
      have hrest : ∀ b ∈ rest, b < 256 := by
        intro b hb
        exact h b (by simp [hb])
      simp only [b64encode, b64decode]
      rw [if_neg (b64char_ne_pad h3), if_neg (b64char_ne_pad h4)]
      rw [b64val_b64char h1, b64val_b64char h2, b64val_b64char h3, b64val_b64char h4]
      rw [ih hrest]
      congr 1
      · omega
      congr 1
      · omega
      congr 1
      omega

/-! Helper lemmas about effects and the receive loop. -/

theorem Effects.app_assoc (a b c : Effects) : (a.app b).app c = a.app (b.app c) := by
  simp [Effects.app]

theorem Effects.nil_app (e : Effects) : Effects.app {} e = e := by
  simp [Effects.app]

theorem Effects.app_nil (e : Effects) : e.app {} = e := by
  simp [Effects.app]

theorem receive_loop_cons (ok : Bool) (s : ClientState) (f : RawFrame) (rest : List RawFrame) :
    _receive_loop ok s (f :: rest)
      = ((_receive_loop ok (_handle_message s ok f).1 rest).1,
         (_handle_message s ok f).2.app (_receive_loop ok (_handle_message s ok f).1 rest).2) :=
  rfl

theorem receive_loop_append (ok : Bool) (s : ClientState) (l1 l2 : List RawFrame) :
    _receive_loop ok s (l1 ++ l2)
      = ((_receive_loop ok (_receive_loop ok s l1).1 l2).1,
         (_receive_loop ok s l1).2.app (_receive_loop ok (_receive_loop ok s l1).1 l2).2) := by
  induction l1 generalizing s with
  | nil => simp [_receive_loop, Effects.nil_app]
  | cons f rest ih =>
      simp only [List.cons_append, receive_loop_cons]
      rw [ih]
      simp [Effects.app_assoc]

/-- Dispatching a delta frame leaves the client state unchanged. -/
theorem handle_delta_frame (s : ClientState) (ok : Bool) (f : RawFrame)
    (h : isDeltaFrame f = true) : (_handle_message s ok f).1 = s := by
  cases f with
  | invalid => simp [isDeltaFrame] at h
  | valid m =>
      obtain ⟨typ, delta, ec⟩ := m
      simp only [isDeltaFrame, Bool.or_eq_true, beq_iff_eq] at h
      rcases h with h | h <;> subst h <;> cases delta
      all_goals
        simp only [_handle_message, EVENT_RESPONSE_CREATED, EVENT_TYPE_RESPONSE_AUDIO_DELTA,
          EVENT_TYPE_RESPONSE_AUDIO_TRANSCRIPT_DELTA]
      all_goals simp
      all_goals split
      all_goals rfl

/-! Claim theorems. -/

/-- Claim C7: for every byte sequence, `send_audio` on a connected client
transmits one AppendAudio command whose audio field is the base64 encoding of
the payload, and base64-decoding that field recovers the original bytes
exactly. -/
theorem send_audio_base64_roundtrip (s : ClientState) (h1 : s.connectedFlag = true)
    (h2 : s.ws = true) (data : List Nat) (hb : ∀ b ∈ data, b < 256) :
    (send_audio s true data).2.cmds = [Cmd.input_audio_buffer_append (b64encode data)]
      ∧ b64decode (b64encode data) = data := by
  constructor
  · simp [send_audio, _send_event, h1, h2]
  · exact b64decode_b64encode data hb

/-- Witness for claim C7 at the payload bytes 1, 2, 3. -/
theorem send_audio_base64_roundtrip_witness :
    (send_audio ⟨true, true, true, false, false, true, true, true, true, true⟩ true
        [1, 2, 3]).2.cmds = [Cmd.input_audio_buffer_append (b64encode [1, 2, 3])]
      ∧ b64decode (b64encode [1, 2, 3]) = [1, 2, 3] :=
  send_audio_base64_roundtrip ⟨true, true, true, false, false, true, true, true, true, true⟩
    rfl rfl [1, 2, 3] (by decide)

/-- Claim C9: calling `cancel_response` while `self._connected` is false is a
complete no-op: no command is transmitted, nothing is logged or raised, and
the whole state — in particular `hasActiveResponse` — is unchanged. -/
theorem cancel_response_not_connected_noop (s : ClientState) (ok : Bool)
    (h : s.connectedFlag = false) :
    cancel_response s ok = (s, {}) := by
  simp [cancel_response, h]

/-- Witness for claim C9 at a disconnected state whose `hasActiveResponse` is true. -/
theorem cancel_response_not_connected_noop_witness :
    cancel_response ⟨false, true, true, true, true, true, true, true, true, true⟩ true
      = (⟨false, true, true, true, true, true, true, true, true, true⟩, {}) :=
  cancel_response_not_connected_noop _ true rfl

/-- Claim C10: an AudioDelta frame whose delta field is missing or empty
invokes no observer callback at all and leaves the state unchanged, and
likewise for a TranscriptDelta frame with a missing or empty delta. -/
theorem empty_delta_no_observer (s : ClientState) (ok : Bool) (ec : Option String) :
    (_handle_message s ok
        (RawFrame.valid ⟨some EVENT_TYPE_RESPONSE_AUDIO_DELTA, none, ec⟩)).2.obs = []
    ∧ (_handle_message s ok
        (RawFrame.valid ⟨some EVENT_TYPE_RESPONSE_AUDIO_DELTA, none, ec⟩)).1 = s
    ∧ (_handle_message s ok
        (RawFrame.valid ⟨some EVENT_TYPE_RESPONSE_AUDIO_DELTA, some "", ec⟩)).2.obs = []
    ∧ (_handle_message s ok
        (RawFrame.valid ⟨some EVENT_TYPE_RESPONSE_AUDIO_DELTA, some "", ec⟩)).1 = s
    ∧ (_handle_message s ok
        (RawFrame.valid ⟨some EVENT_TYPE_RESPONSE_AUDIO_TRANSCRIPT_DELTA, none, ec⟩)).2.obs = []
    ∧ (_handle_message s ok
        (RawFrame.valid ⟨some EVENT_TYPE_RESPONSE_AUDIO_TRANSCRIPT_DELTA, none, ec⟩)).1 = s
    ∧ (_handle_message s ok
        (RawFrame.valid ⟨some EVENT_TYPE_RESPONSE_AUDIO_TRANSCRIPT_DELTA, some "", ec⟩)).2.obs = []
    ∧ (_handle_message s ok
        (RawFrame.valid ⟨some EVENT_TYPE_RESPONSE_AUDIO_TRANSCRIPT_DELTA, some "", ec⟩)).1 = s := by
  refine ⟨?_, ?_, ?_, ?_, ?_, ?_, ?_, ?_⟩ <;>
    simp [_handle_message, EVENT_RESPONSE_CREATED, EVENT_TYPE_RESPONSE_AUDIO_DELTA,
      EVENT_TYPE_RESPONSE_AUDIO_TRANSCRIPT_DELTA]

/-- A run of delta frames leaves the client state unchanged. -/
theorem receive_loop_delta_frames (ok : Bool) (mid : List RawFrame)
    (h : ∀ f ∈ mid, isDeltaFrame f = true) (s : ClientState) :
    (_receive_loop ok s mid).1 = s := by
  induction mid generalizing s with
  | nil => rfl
  | cons f rest ih =>
      rw [receive_loop_cons]
      show (_receive_loop ok (_handle_message s ok f).1 rest).1 = s
      rw [handle_delta_frame s ok f (h f (by simp))]
      exact ih (fun g hg => h g (by simp [hg])) s

/-- Claim C1: dispatching a SpeechStarted frame on a connected client while a
response is active transmits exactly one CancelResponse and then one
ClearAudioBuffer in that same dispatch step — their commands precede those of
every subsequent inbound frame in the receive loop — and `hasActiveResponse`
is false afterwards. -/
theorem speech_started_active_response_cancels (s : ClientState)
    (h1 : s.connectedFlag = true) (h2 : s.ws = true) (h3 : s.hasActiveResponse = true)
    (d ec : Option String) (rest : List RawFrame) :
    (_handle_message s true
        (RawFrame.valid ⟨some EVENT_TYPE_INPUT_AUDIO_BUFFER_SPEECH_STARTED, d, ec⟩)).2.cmds
      = [Cmd.response_cancel, Cmd.input_audio_buffer_clear]
    ∧ (_handle_message s true
        (RawFrame.valid
          ⟨some EVENT_TYPE_INPUT_AUDIO_BUFFER_SPEECH_STARTED, d, ec⟩)).1.hasActiveResponse
      = false
    ∧ (_receive_loop true s
        (RawFrame.valid ⟨some EVENT_TYPE_INPUT_AUDIO_BUFFER_SPEECH_STARTED, d, ec⟩
          :: rest)).2.cmds
      = Cmd.response_cancel :: Cmd.input_audio_buffer_clear ::
          (_receive_loop true
            (_handle_message s true
              (RawFrame.valid ⟨some EVENT_TYPE_INPUT_AUDIO_BUFFER_SPEECH_STARTED, d, ec⟩)).1
            rest).2.cmds := by
  have hcmds : (_handle_message s true
      (RawFrame.valid ⟨some EVENT_TYPE_INPUT_AUDIO_BUFFER_SPEECH_STARTED, d, ec⟩)).2.cmds
      = [Cmd.response_cancel, Cmd.input_audio_buffer_clear] := by
    simp [_handle_message, cancel_response, _send_event, Effects.app, h1, h2, h3,
      EVENT_RESPONSE_CREATED, EVENT_TYPE_RESPONSE_AUDIO_DELTA,
      EVENT_TYPE_RESPONSE_AUDIO_TRANSCRIPT_DELTA, EVENT_TYPE_RESPONSE_DONE,
      EVENT_TYPE_INPUT_AUDIO_BUFFER_SPEECH_STARTED]
  refine ⟨hcmds, ?_, ?_⟩
  · simp [_handle_message, cancel_response, _send_event, h1, h2, h3,
      EVENT_RESPONSE_CREATED, EVENT_TYPE_RESPONSE_AUDIO_DELTA,
      EVENT_TYPE_RESPONSE_AUDIO_TRANSCRIPT_DELTA, EVENT_TYPE_RESPONSE_DONE,
      EVENT_TYPE_INPUT_AUDIO_BUFFER_SPEECH_STARTED]
  · rw [receive_loop_cons]
    show (Effects.app _ _).cmds = _
    simp [Effects.app, hcmds]

/-- Witness for claim C1 at a connected state with an active response. -/
theorem speech_started_active_response_cancels_witness :
    (_handle_message ⟨true, true, true, true, false, true, true, true, true, true⟩ true
        (RawFrame.valid ⟨some EVENT_TYPE_INPUT_AUDIO_BUFFER_SPEECH_STARTED, none, none⟩)).2.cmds
      = [Cmd.response_cancel, Cmd.input_audio_buffer_clear]
    ∧ (_handle_message ⟨true, true, true, true, false, true, true, true, true, true⟩ true
        (RawFrame.valid
          ⟨some EVENT_TYPE_INPUT_AUDIO_BUFFER_SPEECH_STARTED, none, none⟩)).1.hasActiveResponse
      = false
    ∧ (_receive_loop true ⟨true, true, true, true, false, true, true, true, true, true⟩
        (RawFrame.valid ⟨some EVENT_TYPE_INPUT_AUDIO_BUFFER_SPEECH_STARTED, none, none⟩
          :: [])).2.cmds
      = Cmd.response_cancel :: Cmd.input_audio_buffer_clear ::
          (_receive_loop true
            (_handle_message ⟨true, true, true, true, false, true, true, true, true, true⟩ true
              (RawFrame.valid ⟨some EVENT_TYPE_INPUT_AUDIO_BUFFER_SPEECH_STARTED, none, none⟩)).1
            []).2.cmds :=
  speech_started_active_response_cancels
    ⟨true, true, true, true, false, true, true, true, true, true⟩ rfl rfl rfl none none []

/-- Claim C2 counterexample: on a connected client with no active response, a
SpeechStarted frame transmits no command at all, so the count of
ClearAudioBuffer commands is zero, not exactly one. -/
theorem speech_started_inactive_counterexample :
    ((_handle_message ⟨true, true, true, false, false, true, true, true, true, true⟩ true
        (RawFrame.valid ⟨some EVENT_TYPE_INPUT_AUDIO_BUFFER_SPEECH_STARTED,
          none, none⟩)).2.cmds.count Cmd.input_audio_buffer_clear ≠ 1)
    ∧ (_handle_message ⟨true, true, true, false, false, true, true, true, true, true⟩ true
        (RawFrame.valid
          ⟨some EVENT_TYPE_INPUT_AUDIO_BUFFER_SPEECH_STARTED, none, none⟩)).2.cmds = [] := by
  decide

/-- Claim C2 (amended): dispatching a SpeechStarted frame while
`hasActiveResponse` is false transmits zero CancelResponse and zero
ClearAudioBuffer commands — `cancel_response` is not invoked at all — and the
only state change is setting `isSpeaking`. -/
theorem speech_started_inactive_sends_nothing (s : ClientState) (ok : Bool)
    (h : s.hasActiveResponse = false) (d ec : Option String) :
    (_handle_message s ok
        (RawFrame.valid ⟨some EVENT_TYPE_INPUT_AUDIO_BUFFER_SPEECH_STARTED, d, ec⟩)).2.cmds = []
    ∧ (_handle_message s ok
        (RawFrame.valid ⟨some EVENT_TYPE_INPUT_AUDIO_BUFFER_SPEECH_STARTED, d, ec⟩)).1
      = { s with isSpeaking := true } := by
  constructor <;>
    simp [_handle_message, h, EVENT_RESPONSE_CREATED, EVENT_TYPE_RESPONSE_AUDIO_DELTA,
      EVENT_TYPE_RESPONSE_AUDIO_TRANSCRIPT_DELTA, EVENT_TYPE_RESPONSE_DONE,
      EVENT_TYPE_INPUT_AUDIO_BUFFER_SPEECH_STARTED]

/-- Witness for the amended claim C2 at a connected state with no active response. -/
theorem speech_started_inactive_sends_nothing_witness :
    (_handle_message ⟨true, true, true, false, false, true, true, true, true, true⟩ true
        (RawFrame.valid ⟨some EVENT_TYPE_INPUT_AUDIO_BUFFER_SPEECH_STARTED,
          none, none⟩)).2.cmds = []
    ∧ (_handle_message ⟨true, true, true, false, false, true, true, true, true, true⟩ true
        (RawFrame.valid ⟨some EVENT_TYPE_INPUT_AUDIO_BUFFER_SPEECH_STARTED, none, none⟩)).1
      = { (⟨true, true, true, false, false, true, true, true, true, true⟩ : ClientState) with
            isSpeaking := true } :=
  speech_started_inactive_sends_nothing
    ⟨true, true, true, false, false, true, true, true, true, true⟩ true rfl none none

/-- Claim C4: dispatching ResponseCreated, then any interleaving of AudioDelta
and TranscriptDelta frames, then ResponseDone leaves `hasActiveResponse`
false, its value before ResponseCreated; ResponseCreated sets the flag true,
ResponseDone sets it false, and delta frames leave the state unchanged. -/
theorem response_lifecycle_flag (s : ClientState) (ok : Bool) (mid : List RawFrame)
    (h : ∀ f ∈ mid, isDeltaFrame f = true) (d1 d2 ec1 ec2 : Option String) :
    (_receive_loop ok s
        (RawFrame.valid ⟨some EVENT_RESPONSE_CREATED, d1, ec1⟩ ::
          (mid ++ [RawFrame.valid
            ⟨some EVENT_TYPE_RESPONSE_DONE, d2, ec2⟩]))).1.hasActiveResponse = false
    ∧ (_handle_message s ok
        (RawFrame.valid ⟨some EVENT_RESPONSE_CREATED, d1, ec1⟩)).1.hasActiveResponse = true
    ∧ (_handle_message s ok
        (RawFrame.valid ⟨some EVENT_TYPE_RESPONSE_DONE, d2, ec2⟩)).1.hasActiveResponse = false := by
  refine ⟨?_, ?_, ?_⟩
  · rw [receive_loop_cons]
    show (_receive_loop ok _ (mid ++ _)).1.hasActiveResponse = false
    rw [receive_loop_append]
    show (_receive_loop ok (_receive_loop ok _ mid).1 _).1.hasActiveResponse = false
    rw [receive_loop_delta_frames ok mid h]
    simp [_receive_loop, _handle_message, EVENT_RESPONSE_CREATED,
      EVENT_TYPE_RESPONSE_AUDIO_DELTA, EVENT_TYPE_RESPONSE_AUDIO_TRANSCRIPT_DELTA,
      EVENT_TYPE_RESPONSE_DONE]
  · simp [_handle_message, EVENT_RESPONSE_CREATED]
  · simp [_handle_message, EVENT_RESPONSE_CREATED, EVENT_TYPE_RESPONSE_AUDIO_DELTA,
      EVENT_TYPE_RESPONSE_AUDIO_TRANSCRIPT_DELTA, EVENT_TYPE_RESPONSE_DONE]

/-- Witness for claim C4 with one AudioDelta and one TranscriptDelta frame in
between. -/
theorem response_lifecycle_flag_witness :
    (_receive_loop true ⟨true, true, true, false, false, true, true, true, true, true⟩
        (RawFrame.valid ⟨some EVENT_RESPONSE_CREATED, none, none⟩ ::
          ([RawFrame.valid ⟨some EVENT_TYPE_RESPONSE_AUDIO_DELTA, some "AQID", none⟩,
            RawFrame.valid ⟨some EVENT_TYPE_RESPONSE_AUDIO_TRANSCRIPT_DELTA, some "hi", none⟩] ++
            [RawFrame.valid
              ⟨some EVENT_TYPE_RESPONSE_DONE, none, none⟩]))).1.hasActiveResponse = false
    ∧ (_handle_message ⟨true, true, true, false, false, true, true, true, true, true⟩ true
        (RawFrame.valid ⟨some EVENT_RESPONSE_CREATED, none, none⟩)).1.hasActiveResponse = true
    ∧ (_handle_message ⟨true, true, true, false, false, true, true, true, true, true⟩ true
        (RawFrame.valid
          ⟨some EVENT_TYPE_RESPONSE_DONE, none, none⟩)).1.hasActiveResponse = false :=
  response_lifecycle_flag ⟨true, true, true, false, false, true, true, true, true, true⟩ true
    [RawFrame.valid ⟨some EVENT_TYPE_RESPONSE_AUDIO_DELTA, some "AQID", none⟩,
     RawFrame.valid ⟨some EVENT_TYPE_RESPONSE_AUDIO_TRANSCRIPT_DELTA, some "hi", none⟩]
    (by decide) none none none none

/-- A `send_audio` call never changes the client state. -/
theorem send_audio_state (s : ClientState) (ok : Bool) (d : List Nat) :
    (send_audio s ok d).1 = s := by
  simp only [send_audio, _send_event]
  split_ifs <;> rfl

/-- A `send_audio` call emits at most one AppendAudio command and nothing else. -/
theorem send_audio_cmds (s : ClientState) (ok : Bool) (d : List Nat) :
    (send_audio s ok d).2.cmds = []
      ∨ (send_audio s ok d).2.cmds = [Cmd.input_audio_buffer_append (b64encode d)] := by
  simp only [send_audio, _send_event]
  split_ifs <;> simp

/-- A run of `send_audio` calls never changes the client state. -/
theorem send_audio_seq_state (ok : Bool) (ds : List (List Nat)) (s : ClientState) :
    (send_audio_seq ok s ds).1 = s := by
  induction ds generalizing s with
  | nil => rfl
  | cons d rest ih =>
      show (send_audio_seq ok (send_audio s ok d).1 rest).1 = s
      rw [send_audio_state, ih]

/-- A run of `send_audio` calls emits no command other than AppendAudio. -/
theorem send_audio_seq_count (ok : Bool) (ds : List (List Nat)) (s : ClientState) (c : Cmd)
    (hc : ∀ a, c ≠ Cmd.input_audio_buffer_append a) :
    (send_audio_seq ok s ds).2.cmds.count c = 0 := by
  induction ds generalizing s with
  | nil => rfl
  | cons d rest ih =>
      show ((send_audio s ok d).2.app (send_audio_seq ok (send_audio s ok d).1 rest).2).cmds.count
          c = 0
      rw [Effects.app]
      rcases send_audio_cmds s ok d with h | h <;>
        simp [h, ih, List.count_cons, hc (b64encode d)]

/-- Claim C3: a `commit_audio` on a connected client sends one CommitAudio
command and then sends a CreateResponse command and sets `hasActiveResponse`
exactly when `hasActiveResponse` was false; consequently over a sequence of
AppendAudio sends followed by one commit, exactly one CreateResponse is
transmitted when no response was active, and zero otherwise. -/
theorem commit_audio_single_response_create (s : ClientState)
    (h1 : s.connectedFlag = true) (h2 : s.ws = true) (ds : List (List Nat)) :
    ((send_audio_seq true s ds).2.app
        (commit_audio (send_audio_seq true s ds).1 true).2).cmds.count
        Cmd.input_audio_buffer_commit = 1
    ∧ ((send_audio_seq true s ds).2.app
        (commit_audio (send_audio_seq true s ds).1 true).2).cmds.count
        Cmd.response_create = (if s.hasActiveResponse then 0 else 1)
    ∧ (commit_audio (send_audio_seq true s ds).1 true).1.hasActiveResponse = true
    ∧ (commit_audio s true).2.cmds
        = (if s.hasActiveResponse then [Cmd.input_audio_buffer_commit]
           else [Cmd.input_audio_buffer_commit, Cmd.response_create]) := by
  have hseq := send_audio_seq_state true ds s
  have hcommit : ∀ t : ClientState, t.connectedFlag = true → t.ws = true →
      commit_audio t true
        = (if t.hasActiveResponse then t else { t with hasActiveResponse := true },
           { cmds := if t.hasActiveResponse then [Cmd.input_audio_buffer_commit]
               else [Cmd.input_audio_buffer_commit, Cmd.response_create],
             logs := if t.hasActiveResponse then [(Level.debug, "Sent event")]
               else [(Level.debug, "Sent event"), (Level.debug, "Sent event")] }) := by
    intro t ht1 ht2
    cases har : t.hasActiveResponse <;>
      simp [commit_audio, _send_event, Effects.app, ht1, ht2, har]
  rw [Effects.app, hseq, hcommit s h1 h2]
  cases har : s.hasActiveResponse <;>
    simp [List.count_append, har,
      send_audio_seq_count true ds s Cmd.input_audio_buffer_commit (by intro a h; cases h),
      send_audio_seq_count true ds s Cmd.response_create (by intro a h; cases h),
      List.count_cons]

/-- Witness for claim C3 with two AppendAudio payloads and no active response. -/
theorem commit_audio_single_response_create_witness :
    ((send_audio_seq true ⟨true, true, true, false, false, true, true, true, true, true⟩
          [[1, 2, 3], [4]]).2.app
        (commit_audio (send_audio_seq true
          ⟨true, true, true, false, false, true, true, true, true, true⟩
          [[1, 2, 3], [4]]).1 true).2).cmds.count Cmd.input_audio_buffer_commit = 1
    ∧ ((send_audio_seq true ⟨true, true, true, false, false, true, true, true, true, true⟩
          [[1, 2, 3], [4]]).2.app
        (commit_audio (send_audio_seq true
          ⟨true, true, true, false, false, true, true, true, true, true⟩
          [[1, 2, 3], [4]]).1 true).2).cmds.count Cmd.response_create
      = (if (⟨true, true, true, false, false, true, true, true, true,
            true⟩ : ClientState).hasActiveResponse then 0 else 1)
    ∧ (commit_audio (send_audio_seq true
        ⟨true, true, true, false, false, true, true, true, true, true⟩
        [[1, 2, 3], [4]]).1 true).1.hasActiveResponse = true
    ∧ (commit_audio ⟨true, true, true, false, false, true, true, true, true, true⟩ true).2.cmds
      = (if (⟨true, true, true, false, false, true, true, true, true,
            true⟩ : ClientState).hasActiveResponse then [Cmd.input_audio_buffer_commit]
         else [Cmd.input_audio_buffer_commit, Cmd.response_create]) :=
  commit_audio_single_response_create
    ⟨true, true, true, false, false, true, true, true, true, true⟩ rfl rfl [[1, 2, 3], [4]]

/-- Claim C5 counterexample: from a fresh disconnected state, when the
websocket opens but the first send (the UpdateSession command) fails,
`connect` does not raise and the connection does not revert to Disconnected:
it returns normally, `connected` is true, the transport handle and receive
task are retained, and no UpdateSession command was transmitted. -/
theorem connect_first_send_failure_counterexample :
    (connect ⟨false, false, false, false, false, false, false, false, false, false⟩
        true false).2.2 = ConnectOutcome.ok
    ∧ (connect ⟨false, false, false, false, false, false, false, false, false, false⟩
        true false).1.connected = true
    ∧ (connect ⟨false, false, false, false, false, false, false, false, false, false⟩
        true false).1.receiveTask = true
    ∧ (connect ⟨false, false, false, false, false, false, false, false, false, false⟩
        true false).2.1.cmds = [] := by
  decide

/-- Claim C5 (amended): when the websocket cannot be opened, `connect` raises
to its caller and the client stays disconnected, with no transport handle and
no receive task retained and nothing transmitted; but when the websocket opens
and the first send (the UpdateSession command) fails, the failure is swallowed
inside `_send_event`: `connect` returns normally and the client stays
connected, keeping the transport handle and receive task, with no UpdateSession
transmitted. -/
theorem connect_failure_behavior (s : ClientState) (h1 : s.connectedFlag = false)
    (h2 : s.ws = false) (h3 : s.receiveTask = false) (ok : Bool) :
    (connect s false ok).2.2 = ConnectOutcome.raised
    ∧ (connect s false ok).1.connectedFlag = false
    ∧ (connect s false ok).1.ws = false
    ∧ (connect s false ok).1.receiveTask = false
    ∧ (connect s false ok).2.1.cmds = []
    ∧ (connect s true false).2.2 = ConnectOutcome.ok
    ∧ (connect s true false).1.connectedFlag = true
    ∧ (connect s true false).1.ws = true
    ∧ (connect s true false).1.receiveTask = true
    ∧ (connect s true false).2.1.cmds = [] := by
  refine ⟨?_, ?_, ?_, ?_, ?_, ?_, ?_, ?_, ?_, ?_⟩ <;>
    simp [connect, _configure_session, _send_event, h1, h2, h3]

/-- Witness for the amended claim C5 at the fresh disconnected state. -/
theorem connect_failure_behavior_witness :
    (connect ⟨false, false, false, false, false, false, false, false, false, false⟩
        false true).2.2 = ConnectOutcome.raised
    ∧ (connect ⟨false, false, false, false, false, false, false, false, false, false⟩
        false true).1.connectedFlag = false
    ∧ (connect ⟨false, false, false, false, false, false, false, false, false, false⟩
        false true).1.ws = false
    ∧ (connect ⟨false, false, false, false, false, false, false, false, false, false⟩
        false true).1.receiveTask = false
    ∧ (connect ⟨false, false, false, false, false, false, false, false, false, false⟩
        false true).2.1.cmds = []
    ∧ (connect ⟨false, false, false, false, false, false, false, false, false, false⟩
        true false).2.2 = ConnectOutcome.ok
    ∧ (connect ⟨false, false, false, false, false, false, false, false, false, false⟩
        true false).1.connectedFlag = true
    ∧ (connect ⟨false, false, false, false, false, false, false, false, false, false⟩
        true false).1.ws = true
    ∧ (connect ⟨false, false, false, false, false, false, false, false, false, false⟩
        true false).1.receiveTask = true
    ∧ (connect ⟨false, false, false, false, false, false, false, false, false, false⟩
        true false).2.1.cmds = [] :=
  connect_failure_behavior ⟨false, false, false, false, false, false, false, false, false, false⟩
    rfl rfl rfl true

/-- Dispatching a dropped frame changes nothing and produces no command and no
observer callback. -/
theorem handle_unhandled_frame (s : ClientState) (ok : Bool) (f : RawFrame)
    (h : isHandledFrame f = false) :
    (_handle_message s ok f).1 = s ∧ (_handle_message s ok f).2.cmds = []
      ∧ (_handle_message s ok f).2.obs = [] := by
  cases f with
  | invalid => exact ⟨rfl, rfl, rfl⟩
  | valid m =>
      obtain ⟨typ, delta, ec⟩ := m
      simp only [isHandledFrame, Bool.or_eq_false_iff, beq_eq_false_iff_ne, ne_eq,
        EVENT_RESPONSE_CREATED, EVENT_TYPE_RESPONSE_AUDIO_DELTA,
        EVENT_TYPE_RESPONSE_AUDIO_TRANSCRIPT_DELTA, EVENT_TYPE_RESPONSE_DONE,
        EVENT_TYPE_INPUT_AUDIO_BUFFER_SPEECH_STARTED,
        EVENT_TYPE_INPUT_AUDIO_BUFFER_SPEECH_STOPPED] at h
      obtain ⟨⟨⟨⟨⟨⟨h1, h2⟩, h3⟩, h4⟩, h5⟩, h6⟩, h7⟩ := h
      refine ⟨?_, ?_, ?_⟩ <;>
        simp [_handle_message, EVENT_RESPONSE_CREATED, EVENT_TYPE_RESPONSE_AUDIO_DELTA,
          EVENT_TYPE_RESPONSE_AUDIO_TRANSCRIPT_DELTA, EVENT_TYPE_RESPONSE_DONE,
          EVENT_TYPE_INPUT_AUDIO_BUFFER_SPEECH_STARTED,
          EVENT_TYPE_INPUT_AUDIO_BUFFER_SPEECH_STOPPED, h1, h2, h3, h4, h5, h6, h7]

/-- Dropped frames do not affect the state, commands, or observer calls of the
receive loop: processing any frame list is equivalent to processing only its
handled frames, in arrival order. -/
theorem receive_loop_filter (ok : Bool) (frames : List RawFrame) (s : ClientState) :
    (_receive_loop ok s frames).1 = (_receive_loop ok s (frames.filter isHandledFrame)).1
    ∧ (_receive_loop ok s frames).2.cmds
        = (_receive_loop ok s (frames.filter isHandledFrame)).2.cmds
    ∧ (_receive_loop ok s frames).2.obs
        = (_receive_loop ok s (frames.filter isHandledFrame)).2.obs := by
  induction frames generalizing s with
  | nil => exact ⟨rfl, rfl, rfl⟩
  | cons f rest ih =>
      by_cases hf : isHandledFrame f = true
      · rw [List.filter_cons_of_pos hf, receive_loop_cons, receive_loop_cons]
        refine ⟨(ih _).1, ?_, ?_⟩ <;>
          simp [Effects.app, (ih (_handle_message s ok f).1).2.1,
            (ih (_handle_message s ok f).1).2.2]
      · have hf' : isHandledFrame f = false := by
          cases hq : isHandledFrame f
          · rfl
          · exact absurd hq hf
        obtain ⟨e1, e2, e3⟩ := handle_unhandled_frame s ok f hf'
        rw [List.filter_cons_of_neg hf, receive_loop_cons]
        rw [show (_handle_message s ok f).1 = s from e1]
        refine ⟨(ih s).1, ?_, ?_⟩ <;>
          simp [Effects.app, e2, e3, (ih s).2.1, (ih s).2.2]

/-- Claim C6: the handler and receive loop are total functions — a malformed
frame only reaches the logging branch of the decode failure handler — so a
malformed or unrecognized frame never raises out of the receive loop: it is
dropped with a log line, produces no command and no observer callback, and the
loop dispatches exactly the well-formed recognized frames of the sequence, in
arrival order. -/
theorem malformed_frames_dropped (ok : Bool) (s : ClientState)
    (frames : List RawFrame) (f : RawFrame) (h : isHandledFrame f = false) :
    (_handle_message s ok f).1 = s
    ∧ (_handle_message s ok f).2.cmds = []
    ∧ (_handle_message s ok f).2.obs = []
    ∧ (_handle_message s ok RawFrame.invalid).2.logs
        = [(Level.error, "Failed to decode message")]
    ∧ (_receive_loop ok s frames).1 = (_receive_loop ok s (frames.filter isHandledFrame)).1
    ∧ (_receive_loop ok s frames).2.cmds
        = (_receive_loop ok s (frames.filter isHandledFrame)).2.cmds
    ∧ (_receive_loop ok s frames).2.obs
        = (_receive_loop ok s (frames.filter isHandledFrame)).2.obs := by
  obtain ⟨e1, e2, e3⟩ := handle_unhandled_frame s ok f h
  obtain ⟨l1, l2, l3⟩ := receive_loop_filter ok frames s
  exact ⟨e1, e2, e3, rfl, l1, l2, l3⟩

/-- Witness for claim C6: a malformed frame and an unrecognized frame dropped
around two recognized frames. -/
theorem malformed_frames_dropped_witness :
    (_handle_message ⟨true, true, true, false, false, true, true, true, true, true⟩ true
        (RawFrame.valid ⟨some "session.created", none, none⟩)).1
      = ⟨true, true, true, false, false, true, true, true, true, true⟩
    ∧ (_handle_message ⟨true, true, true, false, false, true, true, true, true, true⟩ true
        (RawFrame.valid ⟨some "session.created", none, none⟩)).2.cmds = []
    ∧ (_handle_message ⟨true, true, true, false, false, true, true, true, true, true⟩ true
        (RawFrame.valid ⟨some "session.created", none, none⟩)).2.obs = []
    ∧ (_handle_message ⟨true, true, true, false, false, true, true, true, true, true⟩ true
        RawFrame.invalid).2.logs = [(Level.error, "Failed to decode message")]
    ∧ (_receive_loop true ⟨true, true, true, false, false, true, true, true, true, true⟩
        [RawFrame.invalid,
         RawFrame.valid ⟨some EVENT_RESPONSE_CREATED, none, none⟩,
         RawFrame.invalid,
         RawFrame.valid ⟨some EVENT_TYPE_RESPONSE_DONE, none, none⟩]).1
      = (_receive_loop true ⟨true, true, true, false, false, true, true, true, true, true⟩
          ([RawFrame.invalid,
            RawFrame.valid ⟨some EVENT_RESPONSE_CREATED, none, none⟩,
            RawFrame.invalid,
            RawFrame.valid ⟨some EVENT_TYPE_RESPONSE_DONE, none, none⟩].filter isHandledFrame)).1
    ∧ (_receive_loop true ⟨true, true, true, false, false, true, true, true, true, true⟩
        [RawFrame.invalid,
         RawFrame.valid ⟨some EVENT_RESPONSE_CREATED, none, none⟩,
         RawFrame.invalid,
         RawFrame.valid ⟨some EVENT_TYPE_RESPONSE_DONE, none, none⟩]).2.cmds
      = (_receive_loop true ⟨true, true, true, false, false, true, true, true, true, true⟩
          ([RawFrame.invalid,
            RawFrame.valid ⟨some EVENT_RESPONSE_CREATED, none, none⟩,
            RawFrame.invalid,
            RawFrame.valid ⟨some EVENT_TYPE_RESPONSE_DONE, none, none⟩].filter
            isHandledFrame)).2.cmds
    ∧ (_receive_loop true ⟨true, true, true, false, false, true, true, true, true, true⟩
        [RawFrame.invalid,
         RawFrame.valid ⟨some EVENT_RESPONSE_CREATED, none, none⟩,
         RawFrame.invalid,
         RawFrame.valid ⟨some EVENT_TYPE_RESPONSE_DONE, none, none⟩]).2.obs
      = (_receive_loop true ⟨true, true, true, false, false, true, true, true, true, true⟩
          ([RawFrame.invalid,
            RawFrame.valid ⟨some EVENT_RESPONSE_CREATED, none, none⟩,
            RawFrame.invalid,
            RawFrame.valid ⟨some EVENT_TYPE_RESPONSE_DONE, none, none⟩].filter
            isHandledFrame)).2.obs :=
  malformed_frames_dropped true ⟨true, true, true, false, false, true, true, true, true, true⟩
    [RawFrame.invalid,
     RawFrame.valid ⟨some EVENT_RESPONSE_CREATED, none, none⟩,
     RawFrame.invalid,
     RawFrame.valid ⟨some EVENT_TYPE_RESPONSE_DONE, none, none⟩]
    (RawFrame.valid ⟨some "session.created", none, none⟩) (by decide)

/-- Claim C8: dispatching an inbound error event leaves the whole state — in
particular `hasActiveResponse` and the connection — unchanged, transmits no
command, fires no observer callback, and only logs: at the downgraded
informational (debug) level exactly for the two codes
`response_cancel_not_active` (no response to cancel) and
`conversation_already_has_active_response` (response already active), and at
error level for every other code; the receive loop then continues with the
remaining frames unaffected. -/
theorem error_event_logged_only (s : ClientState) (ok : Bool) (d : Option String)
    (ec : Option String) (rest : List RawFrame) :
    (_handle_message s ok (RawFrame.valid ⟨some "error", d, ec⟩)).1 = s
    ∧ (_handle_message s ok (RawFrame.valid ⟨some "error", d, ec⟩)).2.cmds = []
    ∧ (_handle_message s ok (RawFrame.valid ⟨some "error", d, ec⟩)).2.obs = []
    ∧ (_handle_message s ok (RawFrame.valid ⟨some "error", d, ec⟩)).2.logs
        = [(Level.debug, "Received event"),
           if ec = some "response_cancel_not_active" ∨
               ec = some "conversation_already_has_active_response" then
             (Level.debug, "OpenAI API notice")
           else (Level.error, "OpenAI API error")]
    ∧ (_receive_loop ok s (RawFrame.valid ⟨some "error", d, ec⟩ :: rest)).1
        = (_receive_loop ok s rest).1
    ∧ (_receive_loop ok s (RawFrame.valid ⟨some "error", d, ec⟩ :: rest)).2.cmds
        = (_receive_loop ok s rest).2.cmds
    ∧ (_receive_loop ok s (RawFrame.valid ⟨some "error", d, ec⟩ :: rest)).2.obs
        = (_receive_loop ok s rest).2.obs := by
  have key : _handle_message s ok (RawFrame.valid ⟨some "error", d, ec⟩)
      = (s, { logs := [(Level.debug, "Received event"),
              if ec = some "response_cancel_not_active" ∨
                  ec = some "conversation_already_has_active_response" then
                (Level.debug, "OpenAI API notice")
              else (Level.error, "OpenAI API error")] }) := by
    simp only [_handle_message, EVENT_RESPONSE_CREATED, EVENT_TYPE_RESPONSE_AUDIO_DELTA,
      EVENT_TYPE_RESPONSE_AUDIO_TRANSCRIPT_DELTA, EVENT_TYPE_RESPONSE_DONE,
      EVENT_TYPE_INPUT_AUDIO_BUFFER_SPEECH_STARTED,
      EVENT_TYPE_INPUT_AUDIO_BUFFER_SPEECH_STOPPED]
    simp only [Option.some.injEq, String.reduceEq, if_false, if_true, ite_false, ite_true]
    split <;> simp [*]
  refine ⟨by rw [key], by rw [key], by rw [key], by rw [key], ?_, ?_, ?_⟩ <;>
    rw [receive_loop_cons, key] <;> simp [Effects.app]

end OpenAIRealtime
